import Mathlib

/-!
Verification of the coppermind goal-lifecycle engine
(src-tauri/src: unified_goals.rs, milestones.rs, monthly_goals.rs,
debt_system.rs, pos/goals.rs, pos/shadow.rs), shallowly embedded in Lean.

Modelling conventions:
* `DateTime<Utc>` timestamps are `Int` seconds since the Unix epoch;
  `chrono::Duration::minutes k` is `k * 60`; `date_naive` of a UTC
  timestamp is `Int.fdiv t 86400` (floor to the calendar day).
* Calendar dates that the Rust code keeps as `YYYY-MM-DD` strings are
  kept as strings here too, produced/consumed by faithful models of
  chrono's formatting and parsing (civil-calendar arithmetic below).
* SQL tables are Lean lists of row structures; an `UPDATE ... WHERE`
  is a `List.map` guarded by the `WHERE` predicate, an `INSERT` is an
  append, fetch `LIMIT 1` is `List.find?` in row order.
* `gen_id()` (a fresh unique id) is modelled by a counter threaded
  through the state: the n-th generated id is the string `"c" ++ n`.
* Fallible operations return `Except PosError`; the pure embeddings
  assume the store itself does not fail, and the batch entry point is
  additionally stated over an abstract fallible per-item step, which
  is exactly the shape of the Rust loop over `PosResult` values.
-/

namespace Coppermind

/-- Rust `str::contains` for a nonempty needle, via `String.splitOn`:
the needle occurs in `s` iff splitting on it yields more than one part. -/
def strContains (s pat : String) : Bool :=
  (s.splitOn pat).length != 1

/-- Lexicographic order on char lists. -/
def strLtChars : List Char → List Char → Bool
  | [], [] => false
  | [], _ :: _ => true
  | _ :: _, [] => false
  | a :: as, b :: bs =>
    if a < b then true else if b < a then false else strLtChars as bs

/-- Rust `String` ordering (byte-lexicographic; identical to
code-point-lexicographic on the ASCII date strings compared here). -/
def rustStrLt (s t : String) : Bool :=
  strLtChars s.toList t.toList

/-- SQL `ILIKE '%kw%'`: case-insensitive containment. -/
def ilikeContains (s pat : String) : Bool :=
  strContains s.toLower pat.toLower

/-- SQL `ILIKE` applied to a nullable column: NULL never matches. -/
def ilikeOptContains (s : Option String) (pat : String) : Bool :=
  match s with
  | none => false
  | some s => ilikeContains s pat

-- ─── Civil calendar arithmetic (model of chrono's NaiveDate) ────────

/-- Day-of-week abbreviation of an epoch day number, as chrono `%a`
prints it (day 0 = 1970-01-01 was a Thursday). -/
def dayName (day : Int) : String :=
  (["Sun", "Mon", "Tue", "Wed", "Thu", "Fri", "Sat"]).getD
    ((day + 4).emod 7).toNat "Sun"

/-- Civil (year, month, day) of an epoch day number
(Howard Hinnant's civil_from_days algorithm, proleptic Gregorian). -/
def civilFromDays (z0 : Int) : Int × Int × Int :=
  let z := z0 + 719468
  let era := Int.fdiv z 146097
  let doe := z - era * 146097
  let yoe := Int.fdiv (doe - Int.fdiv doe 1460 + Int.fdiv doe 36524
                        - Int.fdiv doe 146096) 365
  let y := yoe + era * 400
  let doy := doe - (365 * yoe + Int.fdiv yoe 4 - Int.fdiv yoe 100)
  let mp := Int.fdiv (5 * doy + 2) 153
  let d := doy - Int.fdiv (153 * mp + 2) 5 + 1
  let m := mp + (if mp < 10 then 3 else -9)
  (y + (if m ≤ 2 then 1 else 0), m, d)

/-- Epoch day number of a civil (year, month, day)
(Howard Hinnant's days_from_civil algorithm). -/
def daysFromCivil (y0 m d : Int) : Int :=
  let y := y0 - (if m ≤ 2 then 1 else 0)
  let era := Int.fdiv y 400
  let yoe := y - era * 400
  let mp := (m + 9).emod 12
  let doy := Int.fdiv (153 * mp + 2) 5 + d - 1
  let doe := yoe * 365 + Int.fdiv yoe 4 - Int.fdiv yoe 100 + doy
  era * 146097 + doe - 719468

/-- Left-pad a decimal string with zeros to width `k`. -/
def padZeros (s : String) (k : Nat) : String :=
  String.mk (List.replicate (k - s.length) '0') ++ s

/-- chrono `%Y-%m-%d` formatting of an epoch day number. -/
def formatYmdOfDay (day : Int) : String :=
  let c := civilFromDays day
  padZeros (toString c.1) 4 ++ "-" ++ padZeros (toString c.2.1) 2
    ++ "-" ++ padZeros (toString c.2.2) 2

/-- `ts.format("%Y-%m-%d")` on a UTC timestamp (seconds). -/
def formatTsDate (t : Int) : String :=
  formatYmdOfDay (Int.fdiv t 86400)

/-- True leap year (Gregorian). -/
def isLeapYear (y : Nat) : Bool :=
  y % 4 == 0 && (y % 100 != 0 || y % 400 == 0)

/-- Days in a month of a given year. -/
def daysInMonth (y m : Nat) : Nat :=
  if m == 2 then (if isLeapYear y then 29 else 28)
  else if m == 4 || m == 6 || m == 9 || m == 11 then 30
  else 31

/-- All-digit nonempty string. -/
def allDigits (s : String) : Bool :=
  !s.isEmpty && s.toList.all Char.isDigit

/-- chrono `NaiveDate::parse_from_str(s, "%Y-%m-%d")`: three dash-separated
decimal fields forming a valid civil date. -/
def parseYmd (s : String) : Option (Nat × Nat × Nat) :=
  match s.splitOn "-" with
  | [ys, ms, ds] =>
    if allDigits ys && allDigits ms && allDigits ds then
      match ys.toNat?, ms.toNat?, ds.toNat? with
      | some y, some m, some d =>
        if 1 ≤ m && m ≤ 12 && 1 ≤ d && d ≤ daysInMonth y m then
          some (y, m, d)
        else none
      | _, _, _ => none
    else none
  | _ => none

/-- `%a` day name of a parsed `YYYY-MM-DD` string, when it parses. -/
def dayNameOfYmd (s : String) : Option String :=
  (parseYmd s).map (fun c => dayName (daysFromCivil c.1 c.2.1 c.2.2))

/-- Ceiling of `a / b` for integers, the exact value of Rust's
`(a as f64 / b as f64).ceil() as i32` on the in-range inputs the
engine produces (`b > 0`). -/
def ceilDivInt (a b : Int) : Int :=
  -(Int.fdiv (-a) b)

/-- Number of iterations of a `while curr <= end` loop stepping one day
(86400 s) from `start`: both endpoints inclusive. -/
def numDaysInclusive (start endT : Int) : Nat :=
  if endT < start then 0 else ((endT - start).toNat / 86400) + 1

/-- The timestamps visited by that loop. -/
def dayStamps (start endT : Int) : List Int :=
  (List.range (numDaysInclusive start endT)).map
    (fun (i : Nat) => start + 86400 * (i : Int))

/-- Deterministic model of `gen_id()`: the n-th generated id. -/
def genIdStr (n : Nat) : String := "c" ++ toString n

-- ─── Error type (pos/error.rs) ──────────────────────────────────────

/-- `PosError` from pos/error.rs. -/
inductive PosError where
  | Database : String → PosError
  | NotFound : String → PosError
  | InvalidInput : String → PosError
  | External : String → PosError
deriving DecidableEq, Repr

-- ─── unified_goals table (unified_goals.rs) ─────────────────────────

/-- A metric embedded in a unified goal (`UnifiedGoalMetric`);
numeric values are modelled as integers. -/
structure UnifiedMetric where
  id : String
  label : String
  target : Int
  current : Int
  unit : String
deriving DecidableEq, Repr

/-- A row of the `unified_goals` table (`UnifiedGoalRow` plus the
`parent_goal_id` and `due_date_local` columns used by milestones.rs and
debt_system.rs). `due_date_local` (a `YYYY-MM-DD` text column) is
modelled as an epoch day number; columns never read by the verified
operations (`linked_activity_ids`, `labels`) are omitted. -/
structure UnifiedGoal where
  id : String
  text : String
  description : Option String
  completed : Bool
  completed_at : Option Int
  verified : Bool
  due_date : Option Int
  due_date_local : Option Int
  recurring_pattern : Option String
  recurring_template_id : Option String
  priority : String
  urgent : Bool
  metrics : Option (List UnifiedMetric)
  problem_id : Option String
  parent_goal_id : Option String
  created_at : Int
  updated_at : Int
  original_date : Option Int
  is_debt : Bool
deriving DecidableEq, Repr

-- ─── Lazy debt sweep (unified_goals.rs get_unified_goals, pre-read) ─

/-- The UTC threshold "start of local today" computed by
get_unified_goals: local now = now + offset minutes, its calendar day
at 00:00, converted back to UTC by subtracting the offset. -/
def debtThreshold (now_utc offset_minutes : Int) : Int :=
  let now_local := now_utc + offset_minutes * 60
  let today_local := Int.fdiv now_local 86400
  today_local * 86400 - offset_minutes * 60

/-- The `WHERE` clause of the bulk debt update: not completed, not
already debt, has a due timestamp strictly before the threshold. -/
def lazyDebtCond (thr : Int) (g : UnifiedGoal) : Bool :=
  match g.due_date with
  | none => false
  | some d => !g.completed && !g.is_debt && decide (d < thr)

/-- Effect of the bulk update on one row. -/
def lazyDebtSweepOne (thr : Int) (g : UnifiedGoal) : UnifiedGoal :=
  if lazyDebtCond thr g then { g with is_debt := true } else g

/-- The single bulk `UPDATE unified_goals SET is_debt = TRUE WHERE ...`. -/
def lazyDebtSweep (thr : Int) (gs : List UnifiedGoal) : List UnifiedGoal :=
  gs.map (lazyDebtSweepOne thr)

/-- Rows affected by the bulk update. -/
def lazyDebtFlaggedCount (thr : Int) (gs : List UnifiedGoal) : Nat :=
  (gs.filter (lazyDebtCond thr)).length

-- ─── update_unified_goal (unified_goals.rs) ─────────────────────────

/-- `UpdateGoalRequest`. `due_date` is the requested new timestamp
already through chrono parsing: the outer `Option` is field presence in
the request, the inner one the parse result (`parse().ok()` binds NULL
when the string fails to parse). -/
structure UpdateGoalReq where
  text : Option String
  description : Option String
  completed : Option Bool
  verified : Option Bool
  due_date : Option (Option Int)
  recurring_pattern : Option String
  priority : Option String
  urgent : Option Bool
  metrics : Option (List UnifiedMetric)
  problem_id : Option String
deriving DecidableEq, Repr

/-- The dynamically built `UPDATE unified_goals SET ...` of
update_unified_goal, applied to the selected row: one `SET` clause per
present request field, `updated_at` always, `completed_at` only when
`completed = true` is requested, an empty `recurring_pattern` string
bound as NULL. `is_debt` has no corresponding clause. -/
def applyUpdateGoal (now : Int) (req : UpdateGoalReq) (g0 : UnifiedGoal) :
    UnifiedGoal :=
  let g := { g0 with updated_at := now }
  let g := match req.text with | some t => { g with text := t } | none => g
  let g := match req.description with
    | some d => { g with description := some d } | none => g
  let g := match req.completed with
    | some c => { g with
                  completed := c
                  completed_at := if c then some now else g.completed_at }
    | none => g
  let g := match req.verified with
    | some v => { g with verified := v } | none => g
  let g := match req.due_date with
    | some dd => { g with due_date := dd } | none => g
  let g := match req.recurring_pattern with
    | some p =>
      { g with recurring_pattern := if p.isEmpty then none else some p }
    | none => g
  let g := match req.priority with
    | some p => { g with priority := p } | none => g
  let g := match req.urgent with
    | some u => { g with urgent := u } | none => g
  let g := match req.metrics with
    | some ms => { g with metrics := some ms } | none => g
  let g := match req.problem_id with
    | some p => { g with problem_id := some p } | none => g
  g

/-- update_unified_goal as a table transformer (`WHERE id = $n`). -/
def updateUnifiedGoal (gid : String) (req : UpdateGoalReq) (now : Int)
    (gs : List UnifiedGoal) : List UnifiedGoal :=
  gs.map (fun g => if g.id = gid then applyUpdateGoal now req g else g)

/-- toggle_unified_goal_completion on the selected row: SQL's CASE sees
the old `completed`, so `completed_at` follows the new value. -/
def toggleCompletionOne (now : Int) (g : UnifiedGoal) : UnifiedGoal :=
  { g with
    completed := !g.completed
    completed_at := if !g.completed then some now else none
    updated_at := now }

/-- link_activity_to_unified_goal on the selected row: always verifies;
completes only binary goals (no metrics row, or an empty metrics list). -/
def linkActivityVerifyOne (now : Int) (g : UnifiedGoal) : UnifiedGoal :=
  let should_complete :=
    match g.metrics with
    | some ms => ms.isEmpty
    | none => true
  { g with
    verified := true
    completed := if should_complete then true else g.completed
    completed_at := if should_complete then some now else g.completed_at
    updated_at := now }

-- ─── Debt archival and reset (debt_system.rs) ───────────────────────

/-- The `is_debt := true` mark transition_monthly_debt applies to every
non-completed, non-debt goal whose `due_date` is set and whose
`due_date_local` falls inside the month `[startD, endD]`. -/
def monthlyDebtMarkOne (startD endD : Int) (g : UnifiedGoal) : UnifiedGoal :=
  if !g.completed && g.due_date.isSome &&
      (match g.due_date_local with
       | some d => decide (startD ≤ d) && decide (d ≤ endD)
       | none => false) &&
      !g.is_debt
  then { g with is_debt := true } else g

/-- reset_debt_for_month: `UPDATE unified_goals SET is_debt = false
WHERE id IN (...)`, applied to one row. -/
def resetDebtOne (ids : List String) (g : UnifiedGoal) : UnifiedGoal :=
  if ids.contains g.id then { g with is_debt := false } else g

-- ─── Balancer aggregation (milestones.rs / monthly_goals.rs) ────────

/-- Per-goal inner sum of the aggregation query: the sum of the
`current` fields of the metrics JSON array, 0 for a NULL column. -/
def goalMetricsCurrentSum (g : UnifiedGoal) : Int :=
  match g.metrics with
  | none => 0
  | some ms => (ms.map (fun m => m.current)).sum

/-- The aggregate of milestones.rs run_balancer_engine:
`FROM unified_goals WHERE parent_goal_id = $1` (no completed filter). -/
def aggregateProgressMilestones (gs : List UnifiedGoal) (mid : String) : Int :=
  ((gs.filter (fun g => decide (g.parent_goal_id = some mid))).map
    goalMetricsCurrentSum).sum

/-- The aggregate of monthly_goals.rs run_balancer_engine:
`WHERE parent_goal_id = $1 AND completed = true`. -/
def aggregateProgressMonthly (gs : List UnifiedGoal) (mid : String) : Int :=
  ((gs.filter (fun g =>
      decide (g.parent_goal_id = some mid) && g.completed)).map
    goalMetricsCurrentSum).sum

/-- Modelled from the spec: "Aggregate completed = sum of current values
across every linked GoalInstance's Metrics (sum across all instances and
all metrics, regardless of that instance's own completed flag)". Kept as
a second, spec-worded definition to compare with the two source
aggregates. -/
def specLinkedProgress (gs : List UnifiedGoal) (mid : String) : Int :=
  (gs.map (fun g =>
    if g.parent_goal_id = some mid then
      ((g.metrics.getD []).map (fun m => m.current)).sum
    else 0)).sum

-- ─── Balancer engine (milestones.rs) ────────────────────────────────

/-- A row of `goal_periods` as milestones.rs reads it (`MilestoneRow`);
bookkeeping timestamps are omitted. -/
structure MilestoneRow where
  id : String
  target_metric : String
  target_value : Int
  daily_amount : Int
  period_type : String
  period_start : Int
  period_end : Int
  strategy : String
  current_value : Int
  problem_id : Option String
  recurring_pattern : Option String
  label : Option String
  unit : Option String
deriving DecidableEq, Repr

/-- `BalancerResult` of milestones.rs. -/
structure BalancerResult where
  milestone_id : String
  updated_goals : Int
  daily_required : Int
  is_real_milestone : Bool
  message : String
deriving DecidableEq, Repr

/-- The per-row effect of the balancer's
`jsonb_set(COALESCE(metrics, ARRAY), PATH 0 target, $1)` update: sets the
first metric's target; a NULL or empty metrics array has no element 0,
so jsonb_set returns the coalesced empty array unchanged. -/
def setFirstMetricTarget (dr now : Int) (g : UnifiedGoal) : UnifiedGoal :=
  match g.metrics with
  | none => { g with metrics := some [], updated_at := now }
  | some [] => { g with metrics := some [], updated_at := now }
  | some (m :: rest) =>
    { g with
      metrics := some ({ m with target := dr } :: rest)
      updated_at := now }

/-- The balancer's future-goal selection: linked to the milestone, not
completed, due timestamp present and `>= now_utc`. -/
def balancerFuturePred (mid : String) (now_utc : Int) (g : UnifiedGoal) :
    Bool :=
  decide (g.parent_goal_id = some mid) && !g.completed &&
    (match g.due_date with
     | some d => decide (now_utc ≤ d)
     | none => false)

/-- milestones.rs run_balancer_engine: monthly-only guard, aggregate
over all linked instances, early completion return, remaining-days
computation in the caller's local calendar, ceiling division, then the
per-row first-metric target rewrite. Returns the result together with
the updated `unified_goals` table. -/
def runBalancerEngine (m : MilestoneRow) (goals : List UnifiedGoal)
    (now_utc : Int) (timezone_offset : Option Int) :
    Except PosError (BalancerResult × List UnifiedGoal) :=
  let is_real_milestone := m.period_type = "monthly"
  if !is_real_milestone then
    .error (.InvalidInput
      "Balancer only runs on monthly milestones. Weekly/daily milestones are analytics-only.")
  else
    let completed := aggregateProgressMilestones goals m.id
    let remaining_target := m.target_value - completed
    if remaining_target ≤ 0 then
      .ok ({ milestone_id := m.id, updated_goals := 0, daily_required := 0,
             is_real_milestone := true,
             message := "Milestone already complete!" }, goals)
    else
      let offset_minutes := timezone_offset.getD 0
      let today := Int.fdiv (now_utc + offset_minutes * 60) 86400
      let end_date := Int.fdiv (m.period_end + offset_minutes * 60) 86400
      if today > end_date then
        .error (.InvalidInput "Milestone period has ended")
      else
        let remaining_days := (end_date - today) + 1
        if remaining_days ≤ 0 then
          .error (.InvalidInput "No remaining days in period")
        else
          let daily_required := ceilDivInt remaining_target remaining_days
          let updated_count : Int :=
            ((goals.filter (balancerFuturePred m.id now_utc)).length : Int)
          let goals' := goals.map (fun g =>
            if balancerFuturePred m.id now_utc g then
              setFirstMetricTarget daily_required now_utc g
            else g)
          .ok ({ milestone_id := m.id, updated_goals := updated_count,
                 daily_required := daily_required, is_real_milestone := true,
                 message := "Redistributed to " ++ toString updated_count
                   ++ " goals, " ++ toString daily_required ++ " per day" },
               goals')

-- ─── Conflict-discarding instance insert (shared by both paths) ─────

/-- Does the table already hold an instance with this
(recurring_template_id, due_date_local) key? -/
def hasInstanceKey (gs : List UnifiedGoal) (tid : String) (d : Int) : Bool :=
  gs.any (fun g =>
    decide (g.recurring_template_id = some tid) &&
    decide (g.due_date_local = some d))

/-- `INSERT ... ON CONFLICT (recurring_template_id, due_date_local) DO
NOTHING`: a conflict requires both key columns non-NULL (Postgres treats
NULLs as distinct in a unique index), so a row with a NULL template id
always inserts. -/
def insertOnConflictKey (gs : List UnifiedGoal) (row : UnifiedGoal) :
    List UnifiedGoal :=
  match row.recurring_template_id, row.due_date_local with
  | some tid, some d =>
    if hasInstanceKey gs tid d then gs else gs ++ [row]
  | _, _ => gs ++ [row]

-- ─── Milestone daily-instance seeding (milestones.rs) ───────────────

namespace Milestones

/-- milestones.rs is_recurring_day: empty pattern matches every day; a
7-day pattern matches every day; otherwise the parsed date's `%a` name
must occur in the pattern (unparseable dates never match). -/
def is_recurring_day (pattern date_str : String) : Bool :=
  if pattern.isEmpty then true
  else
    let days := (pattern.splitOn ",").filter (fun s => !s.isEmpty)
    if days.length = 7 then true
    else
      match dayNameOfYmd date_str with
      | some dn => strContains pattern dn
      | none => false

end Milestones

/-- The row generate_daily_instances inserts for one day `curr` of the
period: a linked instance (`parent_goal_id` = milestone id) with a
single metric carrying the evenly distributed daily target, NULL
recurring template/pattern. -/
def mkMilestoneInstance (m : MilestoneRow) (dailyTarget now : Int)
    (goalId metricId : String) (curr : Int) : UnifiedGoal :=
  let label := m.label.getD "Target"
  let unit := m.unit.getD "units"
  { id := goalId
    text := m.target_metric
    description := some ("Daily target: " ++ toString dailyTarget ++ " "
      ++ unit)
    completed := false
    completed_at := none
    verified := false
    due_date := some curr
    due_date_local := some (Int.fdiv curr 86400)
    recurring_pattern := none
    recurring_template_id := none
    priority := "medium"
    urgent := false
    metrics := some [{ id := metricId, label := label, target := dailyTarget,
                       current := 0, unit := unit }]
    problem_id := m.problem_id
    parent_goal_id := some m.id
    created_at := now
    updated_at := now
    original_date := none
    is_debt := false }

/-- The loop body of generate_daily_instances for one day `curr`: when
the pattern matches the day's date string, two fresh ids (goal, metric)
are drawn and the instance is inserted with the conflict-discarding
insert. -/
def genDailyStep (m : MilestoneRow) (pattern : String) (dt now : Int)
    (acc : List UnifiedGoal × Nat) (curr : Int) : List UnifiedGoal × Nat :=
  let date_str := formatTsDate curr
  if Milestones.is_recurring_day pattern date_str then
    (insertOnConflictKey acc.1
      (mkMilestoneInstance m dt now (genIdStr acc.2)
        (genIdStr (acc.2 + 1)) curr),
     acc.2 + 2)
  else acc

/-- generate_daily_instances: the even daily target is derived once from
the period span, then the loop walks each day of
[period_start, period_end]. State is (unified_goals table, id counter). -/
def genDailyInstances (m : MilestoneRow) (pattern : String) (now : Int)
    (st : List UnifiedGoal × Nat) : List UnifiedGoal × Nat :=
  let total_days : Int := Int.tdiv (m.period_end - m.period_start) 86400 + 1
  let daily_target := ceilDivInt m.target_value total_days
  (dayStamps m.period_start m.period_end).foldl
    (genDailyStep m pattern daily_target now) st

/-- The rows genDailyInstances appends for a list of day timestamps when
every day matches: one instance per day, ids drawn pairwise from the
counter. -/
def milestoneSeedRows (m : MilestoneRow) (dt now : Int) :
    List Int → Nat → List UnifiedGoal
  | [], _ => []
  | curr :: rest, n =>
    mkMilestoneInstance m dt now (genIdStr n) (genIdStr (n + 1)) curr ::
      milestoneSeedRows m dt now rest (n + 2)

/-- The daily target generate_daily_instances derives for a milestone. -/
def milestoneDailyTarget (m : MilestoneRow) : Int :=
  ceilDivInt m.target_value
    (Int.tdiv (m.period_end - m.period_start) 86400 + 1)

-- ─── Recurring expansion (unified_goals.rs get_unified_goals) ───────

/-- The template fetch: goals with a recurring pattern that are not
themselves instances and not completed. -/
def templatesOf (gs : List UnifiedGoal) : List UnifiedGoal :=
  gs.filter (fun g =>
    g.recurring_pattern.isSome && g.recurring_template_id.isNone &&
    !g.completed)

/-- The per-template day test of the expansion loop:
`pattern.contains(day_name) or pattern == "Daily"`. -/
def matchesPatternDay (p dn : String) : Bool :=
  strContains p dn || p == "Daily"

/-- The instance row the expansion inserts: template fields copied, due
timestamp = the offset-shifted loop timestamp, local date = its calendar
day, recurring_template_id = the template's id, NULL pattern. -/
def mkRecurringInstance (tmpl : UnifiedGoal) (newId : String)
    (localCurr now : Int) : UnifiedGoal :=
  { id := newId
    text := tmpl.text
    description := tmpl.description
    completed := false
    completed_at := none
    verified := false
    due_date := some localCurr
    due_date_local := some (Int.fdiv localCurr 86400)
    recurring_pattern := none
    recurring_template_id := some tmpl.id
    priority := tmpl.priority
    urgent := tmpl.urgent
    metrics := tmpl.metrics
    problem_id := tmpl.problem_id
    parent_goal_id := none
    created_at := now
    updated_at := now
    original_date := none
    is_debt := false }

/-- One template's attempt on one day: a fresh id is drawn and the
conflict-discarding insert runs only when the pattern matches the local
day name. -/
def expandStepTemplate (dn : String) (localCurr now : Int)
    (acc : List UnifiedGoal × Nat) (tmpl : UnifiedGoal) :
    List UnifiedGoal × Nat :=
  match tmpl.recurring_pattern with
  | none => acc
  | some p =>
    if matchesPatternDay p dn then
      (insertOnConflictKey acc.1
        (mkRecurringInstance tmpl (genIdStr acc.2) localCurr now),
       acc.2 + 1)
    else acc

/-- One day of the expansion loop: local timestamp and day name from the
caller's offset, then every template is tried. -/
def expandDay (tmpls : List UnifiedGoal) (off now : Int)
    (acc : List UnifiedGoal × Nat) (curr : Int) : List UnifiedGoal × Nat :=
  let localCurr := curr + off * 60
  let dn := dayName (Int.fdiv localCurr 86400)
  tmpls.foldl (expandStepTemplate dn localCurr now) acc

/-- The day window of the loop, capped at 366 iterations
(`days_processed < max_days`). -/
def dayStampsCapped (start endT : Int) : List Int :=
  (List.range (min (numDaysInclusive start endT) 366)).map
    (fun (i : Nat) => start + 86400 * (i : Int))

/-- The whole window scan over a fixed template list. -/
def expandWindow (tmpls : List UnifiedGoal) (off now start endT : Int)
    (st : List UnifiedGoal × Nat) : List UnifiedGoal × Nat :=
  (dayStampsCapped start endT).foldl (expandDay tmpls off now) st

/-- One RecurringExpander run as get_unified_goals performs it: fetch
the active templates from the current table, then scan the window. -/
def recurringExpansionRun (off now start endT : Int)
    (st : List UnifiedGoal × Nat) : List UnifiedGoal × Nat :=
  expandWindow (templatesOf st.1) off now start endT st

/-- The (template id, local date) keys of the instances in the table. -/
def instanceKeys (gs : List UnifiedGoal) : List (String × Int) :=
  gs.filterMap (fun g =>
    match g.recurring_template_id, g.due_date_local with
    | some tid, some d => some (tid, d)
    | _, _ => none)

-- ─── pos_* tables (pos/goals.rs, pos/shadow.rs) ─────────────────────

/-- A row of `pos_goals` (`GoalRow` plus the `category` column the
shadow keyword match reads). -/
structure PosGoal where
  id : String
  date : String
  description : String
  problem_id : Option String
  category : Option String
  is_verified : Bool
  recurring_goal_id : Option String
deriving DecidableEq, Repr

/-- A row of `pos_goal_metrics` (`GoalMetricRow`). -/
structure PosMetric where
  id : String
  goal_id : String
  label : String
  target_value : Int
  current_value : Int
  unit : String
deriving DecidableEq, Repr

/-- A row of `pos_activities` (`ActivityRow`). -/
structure PosActivity where
  id : String
  date : String
  start_time : Int
  end_time : Int
  category : String
  description : String
  is_productive : Bool
  is_shadow : Bool
  goal_id : Option String
deriving DecidableEq, Repr

/-- A row of `pos_recurring_goals` (`RecurringGoalRow`). -/
structure PosRecurringGoal where
  id : String
  description : String
  frequency : String
  is_active : Bool
deriving DecidableEq, Repr

/-- A row of `pos_recurring_goal_metrics` (`RecurringGoalMetricRow`). -/
structure PosRecurringMetric where
  id : String
  recurring_goal_id : String
  label : String
  target_value : Int
  unit : String
deriving DecidableEq, Repr

/-- The pos_* store with the fresh-id counter. -/
structure PosSt where
  goals : List PosGoal
  goal_metrics : List PosMetric
  activities : List PosActivity
  recurring_goals : List PosRecurringGoal
  recurring_goal_metrics : List PosRecurringMetric
  nextId : Nat
deriving DecidableEq, Repr

/-- The empty store. -/
def emptyPosSt : PosSt :=
  { goals := [], goal_metrics := [], activities := []
    recurring_goals := [], recurring_goal_metrics := [], nextId := 0 }

-- ─── create_goal (pos/goals.rs) ─────────────────────────────────────

/-- Drop every trailing slash (Rust `trim_end_matches`). -/
def dropTrailingSlashes (s : String) : String :=
  s.dropRightWhile (fun c => c == '/')

/-- pos/goals.rs normalize_problem_id: LeetCode/Codeforces problem URL
to a normalized slug, pass-through otherwise. -/
def normalize_problem_id (pid : String) : String :=
  if strContains pid "leetcode.com/problems/" then
    match (pid.splitOn "problems/").drop 1 with
    | cap :: _ =>
      let trimmed := dropTrailingSlashes cap
      let slug := (trimmed.splitOn "/").headD cap
      "leetcode-" ++ slug
    | [] => pid
  else if strContains pid "codeforces.com/problemset/problem/" then
    let parts := pid.splitOn "problem/"
    if parts.length > 1 then
      let rest := (parts.getD 1 "").splitOn "/"
      if rest.length ≥ 2 then
        "cf-" ++ rest.getD 0 "" ++ dropTrailingSlashes (rest.getD 1 "")
      else pid
    else pid
  else pid

namespace PosGoals

/-- pos/goals.rs is_recurring_day: the sentinel frequency "Daily"
matches every date; otherwise the parsed date's `%a` name must occur in
the frequency string. -/
def is_recurring_day (frequency date_str : String) : Bool :=
  if frequency == "Daily" then true
  else
    match dayNameOfYmd date_str with
    | some dn => strContains frequency dn
    | none => false

end PosGoals

/-- `MetricInput` of create_goal. -/
structure MetricInput where
  label : Option String
  target_value : Int
  unit : String
deriving DecidableEq, Repr

/-- `CreateGoalRequest` of pos/goals.rs. -/
structure CreateGoalReq where
  date : Option String
  description : String
  problem_id : Option String
  metrics : Option (List MetricInput)
  frequency : Option String
deriving DecidableEq, Repr

/-- Insert one `pos_goal_metrics` row copied from a `MetricInput`. -/
def insertGoalMetricRow (goal_id : String) (st : PosSt) (m : MetricInput) :
    PosSt :=
  { st with
    goal_metrics := st.goal_metrics ++
      [{ id := genIdStr st.nextId, goal_id := goal_id
         label := m.label.getD "Target", target_value := m.target_value
         current_value := 0, unit := m.unit }]
    nextId := st.nextId + 1 }

/-- pos/goals.rs create_goal (`today` = the `Utc::now` date string the
command computes). Recurring mode writes the template and its metrics
first and only then validates the requested date against today;
one-off mode validates before any write. Returns the store after the
call together with the command's result (the returned JSON payload is
not modelled). -/
def create_goal (today : String) (req : CreateGoalReq) (st : PosSt) :
    PosSt × Except PosError Unit :=
  let final_problem_id := req.problem_id.map normalize_problem_id
  match req.frequency with
  | some frequency =>
    if frequency.isEmpty then
      (st, .error (.InvalidInput
        "Frequency cannot be empty for recurring goals"))
    else
      let rg_id := genIdStr st.nextId
      let st := { st with
        recurring_goals := st.recurring_goals ++
          [{ id := rg_id, description := req.description
             frequency := frequency, is_active := true }]
        nextId := st.nextId + 1 }
      let st := (req.metrics.getD []).foldl
        (fun s m => { s with
          recurring_goal_metrics := s.recurring_goal_metrics ++
            [{ id := genIdStr s.nextId, recurring_goal_id := rg_id
               label := m.label.getD "Target"
               target_value := m.target_value, unit := m.unit }]
          nextId := s.nextId + 1 }) st
      match req.date with
      | some date =>
        if rustStrLt date today then
          (st, .error (.InvalidInput
            ("Cannot create goals for past dates. Goal date: " ++ date
              ++ ", Today: " ++ today)))
        else if PosGoals.is_recurring_day frequency date then
          let goal_id := genIdStr st.nextId
          let st := { st with
            goals := st.goals ++
              [{ id := goal_id, date := date
                 description := req.description
                 problem_id := final_problem_id, category := none
                 is_verified := false, recurring_goal_id := some rg_id }]
            nextId := st.nextId + 1 }
          let st := (req.metrics.getD []).foldl
            (insertGoalMetricRow goal_id) st
          (st, .ok ())
        else (st, .ok ())
      | none => (st, .ok ())
  | none =>
    match req.date with
    | none =>
      (st, .error (.InvalidInput "Date is required for one-off goals"))
    | some date =>
      if rustStrLt date today then
        (st, .error (.InvalidInput
          ("Cannot create goals for past dates. Goal date: " ++ date
            ++ ", Today: " ++ today)))
      else
        let goal_id := genIdStr st.nextId
        let st := { st with
          goals := st.goals ++
            [{ id := goal_id, date := date
               description := req.description
               problem_id := final_problem_id, category := none
               is_verified := false, recurring_goal_id := none }]
          nextId := st.nextId + 1 }
        let st := (req.metrics.getD []).foldl
          (insertGoalMetricRow goal_id) st
        (st, .ok ())

-- ─── Shadow verifier (pos/shadow.rs) ────────────────────────────────

/-- `ShadowInput` of pos/shadow.rs. -/
structure ShadowInput where
  submitted_time : Int
  problem_id : String
  problem_title : String
  platform : String
deriving DecidableEq, Repr

/-- The category derived from the source platform. -/
def shadowCategory (platform : String) : String :=
  if platform == "leetcode" then "coding_leetcode"
  else if platform == "codeforces" then "coding_codeforces"
  else "coding"

/-- The keyword match_goal_by_keyword extracts from the category:
the last underscore-separated fragment (`coding_leetcode` gives
`leetcode`), the whole category when it has no underscore. -/
def shadowKeyword (category : String) : String :=
  if strContains category "_" then
    (category.splitOn "_").getLastD category
  else category

/-- The duplicate check of process_shadow_log: a shadow activity with
exactly this end timestamp. -/
def shadowDupPred (endT : Int) (a : PosActivity) : Bool :=
  a.is_shadow && decide (a.end_time = endT)

/-- The exact-match fetch: same local date, identical problem id, not
yet verified (`LIMIT 1` = first row). -/
def exactMatchPred (date : String) (pid : String) (g : PosGoal) : Bool :=
  decide (g.date = date) && decide (g.problem_id = some pid) &&
    !g.is_verified

/-- The joined candidate rows of match_goal_by_keyword, in join order:
goals of the date, unverified, keyword in description or category,
paired with each of their metrics still below target. -/
def keywordCandidates (st : PosSt) (date : String) (kw : String) :
    List (PosGoal × PosMetric) :=
  (st.goals.map (fun g => (st.goal_metrics.filter
      (fun m => decide (m.goal_id = g.id))).map (fun m => (g, m)))).flatten
    |>.filter (fun p =>
      decide (p.1.date = date) && !p.1.is_verified &&
      (ilikeContains p.1.description kw ||
        ilikeOptContains p.1.category kw) &&
      decide (p.2.current_value < p.2.target_value))

/-- `ORDER BY target_value - current_value DESC LIMIT 1`: the first
candidate with the maximal remaining gap (ties resolved by incidental
row order, here the stable join order). -/
def pickLargestGap (l : List (PosGoal × PosMetric)) :
    Option (PosGoal × PosMetric) :=
  l.foldl (fun best p =>
    match best with
    | none => some p
    | some b =>
      if p.2.target_value - p.2.current_value >
          b.2.target_value - b.2.current_value
      then some p else some b) none

/-- match_goal_by_keyword: best (goal, metric) candidate for the
keyword derived from the category. -/
def match_goal_by_keyword (st : PosSt) (date category : String) :
    Option (PosGoal × PosMetric) :=
  pickLargestGap (keywordCandidates st date (shadowKeyword category))

/-- All metrics of the goal at or above target (the completion check the
fallback runs after its increment). -/
def allMetricsComplete (st : PosSt) (goal_id : String) : Bool :=
  !(st.goal_metrics.any (fun m =>
    decide (m.goal_id = goal_id) &&
    decide (m.current_value < m.target_value)))

/-- pos/shadow.rs process_shadow_log: the activity window ends at the
submission time; the duplicate check short-circuits with `none`;
otherwise the shadow activity is inserted, then either the exact match
(link + verify) or the keyword fallback (link + increment the chosen
metric + verify only when every metric reached target) runs inside the
same transaction. Returns the created activity id (or `none`) and the
store after commit. -/
def process_shadow_log (duration_minutes : Int) (sub : ShadowInput)
    (st : PosSt) : Option String × PosSt :=
  let start_time := sub.submitted_time - duration_minutes * 60
  let end_time := sub.submitted_time
  let date := formatTsDate start_time
  if st.activities.any (shadowDupPred end_time) then
    (none, st)
  else
    let category := shadowCategory sub.platform
    let description := sub.platform.toUpper ++ " - " ++ sub.problem_title
    let activity_id := genIdStr st.nextId
    let newActivity : PosActivity :=
      { id := activity_id, date := date, start_time := start_time
        end_time := end_time, category := category
        description := description, is_productive := true
        is_shadow := true, goal_id := none }
    let st := { st with
      activities := st.activities ++ [newActivity]
      nextId := st.nextId + 1 }
    match st.goals.find? (exactMatchPred date sub.problem_id) with
    | some g =>
      let st := { st with
        activities := st.activities.map (fun a =>
          if a.id = activity_id then { a with goal_id := some g.id } else a)
        goals := st.goals.map (fun h =>
          if h.id = g.id then { h with is_verified := true } else h) }
      (some activity_id, st)
    | none =>
      match match_goal_by_keyword st date category with
      | some (g, metric) =>
        let st := { st with
          activities := st.activities.map (fun a =>
            if a.id = activity_id then { a with goal_id := some g.id }
            else a)
          goal_metrics := st.goal_metrics.map (fun m =>
            if m.id = metric.id then
              { m with current_value := m.current_value + 1 }
            else m) }
        let st :=
          if allMetricsComplete st g.id then
            { st with goals := st.goals.map (fun h =>
                if h.id = g.id then { h with is_verified := true } else h) }
          else st
        (some activity_id, st)
      | none => (some activity_id, st)

/-- pos/shadow.rs process_submissions, stated over the per-item call as
an abstract fallible step (each call returns a `PosResult`; the Rust
loop applies the question-mark operator to it): items are processed in
order, `count` increments on every `Some` result, and an `Err` from the
step is returned through the question mark. -/
def process_submissions
    (step : ShadowInput → PosSt → Except PosError (Option String × PosSt)) :
    List ShadowInput → PosSt → Except PosError (Int × PosSt)
  | [], st => .ok (0, st)
  | sub :: rest, st =>
    match step sub st with
    | .error e => .error e
    | .ok (res, st') =>
      match process_submissions step rest st' with
      | .error e => .error e
      | .ok (c, st'') => .ok ((if res.isSome then c + 1 else c), st'')

/-- The per-item step when the store does not fail: the pure
process_shadow_log embedding. -/
def stepPure (duration_minutes : Int) :
    ShadowInput → PosSt → Except PosError (Option String × PosSt) :=
  fun sub st => .ok (process_shadow_log duration_minutes sub st)

/-- The sequential per-item results of a batch under the pure step:
the list of per-item outcomes and the final store. -/
def pureBatchResults (duration_minutes : Int) :
    List ShadowInput → PosSt → List (Option String) × PosSt
  | [], st => ([], st)
  | sub :: rest, st =>
    let p := process_shadow_log duration_minutes sub st
    let q := pureBatchResults duration_minutes rest p.2
    (p.1 :: q.1, q.2)

-- ─── Concrete fixtures used by counterexamples and witnesses ────────

/-- A linked, not-completed instance with recorded progress 5 of 10. -/
def exGoalHalfDone : UnifiedGoal :=
  { id := "g1", text := "Pushups", description := none, completed := false
    completed_at := none, verified := false, due_date := none
    due_date_local := none, recurring_pattern := none
    recurring_template_id := none, priority := "medium", urgent := false
    metrics := some [{ id := "m1", label := "pushups", target := 10
                       current := 5, unit := "reps" }]
    problem_id := none, parent_goal_id := some "M", created_at := 0
    updated_at := 0, original_date := none, is_debt := false }

/-- A linked, not-completed instance whose recorded progress 12 already
exceeds the milestone target. -/
def exGoalOverDone : UnifiedGoal :=
  { exGoalHalfDone with
    id := "g2"
    metrics := some [{ id := "m2", label := "pushups", target := 10
                       current := 12, unit := "reps" }] }

/-- A monthly milestone with target 10 over a two-day period ending at
day 1; used with a "now" far past the period end. -/
def exMilestoneDone : MilestoneRow :=
  { id := "M", target_metric := "Pushups", target_value := 10
    daily_amount := 5, period_type := "monthly", period_start := 0
    period_end := 86400, strategy := "EvenDistribution", current_value := 0
    problem_id := none, recurring_pattern := none, label := none
    unit := none }

/-- A goal already flagged as debt. -/
def exDebtGoal : UnifiedGoal :=
  { exGoalHalfDone with id := "g3", is_debt := true }

/-- An update request touching several fields (none of them is_debt;
the request type has no such field). -/
def exUpdateReq : UpdateGoalReq :=
  { text := some "new text", description := none, completed := some true
    verified := some true, due_date := none, recurring_pattern := some ""
    priority := none, urgent := none, metrics := none, problem_id := none }

/-- A monthly milestone spanning three days (day 0 to day 2). -/
def exMilestone3Days : MilestoneRow :=
  { id := "M3", target_metric := "Pushups", target_value := 30
    daily_amount := 10, period_type := "monthly", period_start := 0
    period_end := 2 * 86400, strategy := "EvenDistribution"
    current_value := 0, problem_id := none, recurring_pattern := some ""
    label := some "pushups", unit := some "reps" }

/-- An active recurring template ("Daily"). -/
def exTemplate : UnifiedGoal :=
  { id := "T1", text := "stretch", description := none, completed := false
    completed_at := none, verified := false, due_date := none
    due_date_local := none, recurring_pattern := some "Daily"
    recurring_template_id := none, priority := "medium", urgent := false
    metrics := none, problem_id := none, parent_goal_id := none
    created_at := 0, updated_at := 0, original_date := none
    is_debt := false }

/-- A recurring create_goal request dated in the past. -/
def exCreateRecurPast : CreateGoalReq :=
  { date := some "2020-01-01", description := "solve one problem"
    problem_id := none, metrics := none, frequency := some "Daily" }

/-- A one-off create_goal request dated in the past. -/
def exCreateOneOffPast : CreateGoalReq :=
  { date := some "2020-01-01", description := "solve one problem"
    problem_id := none, metrics := none, frequency := none }

/-- A submission whose activity window starts on 1970-01-03. -/
def exShadowSub : ShadowInput :=
  { submitted_time := 2 * 86400 + 1800, problem_id := "p1"
    problem_title := "Two Sum", platform := "leetcode" }

/-- A goal explicitly referencing problem p1 on that date. -/
def exExactGoal : PosGoal :=
  { id := "ge", date := "1970-01-03", description := "solve p1"
    problem_id := some "p1", category := none, is_verified := false
    recurring_goal_id := none }

/-- An unrelated count-based goal on the same date that the keyword
fallback would match (description mentions leetcode, metric below
target). -/
def exOtherGoal : PosGoal :=
  { id := "go", date := "1970-01-03", description := "leetcode practice"
    problem_id := none, category := none, is_verified := false
    recurring_goal_id := none }

/-- The unrelated goal's count metric, 1 of 3. -/
def exOtherMetric : PosMetric :=
  { id := "mo", goal_id := "go", label := "problems", target_value := 3
    current_value := 1, unit := "count" }

/-- A store holding both goals of the exact-match precedence scenario. -/
def exShadowSt : PosSt :=
  { goals := [exOtherGoal, exExactGoal], goal_metrics := [exOtherMetric]
    activities := [], recurring_goals := [], recurring_goal_metrics := []
    nextId := 0 }

/-- A per-item step that fails on the designated submission and
otherwise behaves like the pure embedding: the shape of a store failure
during one item of the batch. -/
def exBoomStep :
    ShadowInput → PosSt → Except PosError (Option String × PosSt) :=
  fun sub st =>
    if sub.problem_id = "boom" then
      .error (.Database "create shadow activity: connection closed")
    else .ok (process_shadow_log 30 sub st)

/-- The failing submission. -/
def exBoomSub : ShadowInput :=
  { submitted_time := 2 * 86400 + 1800, problem_id := "boom"
    problem_title := "T", platform := "leetcode" }

/-- A later, well-formed submission. -/
def exOkSub : ShadowInput :=
  { submitted_time := 3 * 86400 + 1800, problem_id := "p2"
    problem_title := "U", platform := "leetcode" }

-- ════════════════════════════ Theorems ═════════════════════════════

-- ─── C4: lazy debt sweep ────────────────────────────────────────────

theorem lazyDebtSweepOne_is_debt (thr : Int) (g : UnifiedGoal) :
    (lazyDebtSweepOne thr g).is_debt =
      (g.is_debt || (!g.completed &&
        match g.due_date with
        | some d => decide (d < thr)
        | none => false)) := by
  unfold lazyDebtSweepOne lazyDebtCond
  cases hd : g.due_date with
  | none => simp [hd]
  | some d =>
    by_cases hc : g.completed <;> by_cases hb : g.is_debt <;>
      by_cases hlt : d < thr <;> simp [hd, hc, hb, hlt]

theorem lazyDebtCond_after (thr : Int) (g : UnifiedGoal) :
    lazyDebtCond thr (lazyDebtSweepOne thr g) = false := by
  unfold lazyDebtSweepOne
  by_cases h : lazyDebtCond thr g
  · simp only [h, if_true]
    unfold lazyDebtCond
    cases hd : g.due_date <;> simp [hd]
  · simp only [h, if_false]
    simp only [Bool.not_eq_true] at h
    exact h

theorem lazyDebtSweepOne_idem (thr : Int) (g : UnifiedGoal) :
    lazyDebtSweepOne thr (lazyDebtSweepOne thr g) = lazyDebtSweepOne thr g := by
  have h := lazyDebtCond_after thr g
  show (if lazyDebtCond thr (lazyDebtSweepOne thr g) then _ else
    lazyDebtSweepOne thr g) = lazyDebtSweepOne thr g
  rw [h]
  simp

/-- Claim C4: the lazy debt sweep run at the start of get_unified_goals
sets is_debt on exactly the goals that are not completed, not already
debt, have a due timestamp, and are due strictly before the start of
local today converted to UTC from the caller's offset; re-running it
with no intervening changes is a no-op and flags zero rows. -/
theorem lazy_debt_sweep_exact_and_idempotent
    (now_utc offset_minutes : Int) (gs : List UnifiedGoal) :
    ((lazyDebtSweep (debtThreshold now_utc offset_minutes) gs).map
        (fun g => g.is_debt)
      = gs.map (fun g => g.is_debt ||
          (!g.completed &&
            match g.due_date with
            | some d => decide (d < debtThreshold now_utc offset_minutes)
            | none => false)))
    ∧ lazyDebtSweep (debtThreshold now_utc offset_minutes)
        (lazyDebtSweep (debtThreshold now_utc offset_minutes) gs)
      = lazyDebtSweep (debtThreshold now_utc offset_minutes) gs
    ∧ lazyDebtFlaggedCount (debtThreshold now_utc offset_minutes)
        (lazyDebtSweep (debtThreshold now_utc offset_minutes) gs) = 0 := by
  set thr := debtThreshold now_utc offset_minutes with hthr
  refine ⟨?_, ?_, ?_⟩
  · induction gs with
    | nil => rfl
    | cons g t ih =>
      simp only [lazyDebtSweep, List.map_cons] at ih ⊢
      exact congrArg₂ List.cons (lazyDebtSweepOne_is_debt thr g) ih
  · induction gs with
    | nil => rfl
    | cons g t ih =>
      simp only [lazyDebtSweep, List.map_cons] at ih ⊢
      exact congrArg₂ List.cons (lazyDebtSweepOne_idem thr g) ih
  · induction gs with
    | nil => rfl
    | cons g t ih =>
      simp only [lazyDebtSweep, lazyDebtFlaggedCount, List.map_cons,
        List.filter_cons, lazyDebtCond_after thr g] at ih ⊢
      exact ih

-- ─── C9: debt flag cleared only by the explicit reset ───────────────

/-- Claim C9: once is_debt is true, no engine operation other than the
explicit reset clears it: the general update path (whose request type
has no is_debt field and whose SET clause never touches the column),
completion toggling and activity linking all preserve it; the lazy
sweep and the monthly archival only ever set it; and the reset clears
it exactly for the listed goal ids. -/
theorem debt_flag_cleared_only_by_reset
    (req : UpdateGoalReq) (now thr startD endD : Int)
    (ids : List String) (g : UnifiedGoal) :
    (applyUpdateGoal now req g).is_debt = g.is_debt
    ∧ (toggleCompletionOne now g).is_debt = g.is_debt
    ∧ (linkActivityVerifyOne now g).is_debt = g.is_debt
    ∧ (g.is_debt = true → (lazyDebtSweepOne thr g).is_debt = true)
    ∧ (g.is_debt = true → (monthlyDebtMarkOne startD endD g).is_debt = true)
    ∧ (resetDebtOne ids g).is_debt =
        (if ids.contains g.id then false else g.is_debt) := by
  refine ⟨?_, ?_, ?_, ?_, ?_, ?_⟩
  · rcases req with ⟨t, d, c, v, dd, rp, pr, u, ms, pid⟩
    cases t <;> cases d <;> cases c <;> cases v <;> cases dd <;>
      cases rp <;> cases pr <;> cases u <;> cases ms <;> cases pid <;>
      simp [applyUpdateGoal]
  · simp [toggleCompletionOne]
  · simp [linkActivityVerifyOne]
  · intro h
    rw [lazyDebtSweepOne_is_debt, h]
    simp
  · intro h
    unfold monthlyDebtMarkOne
    split <;> simp [h]
  · unfold resetDebtOne
    split <;> simp

/-- Witness for C9 at a concrete debt goal: the update path and the
sweep keep the flag, the reset clears it. -/
theorem debt_flag_cleared_only_by_reset_witness :
    (applyUpdateGoal 5 exUpdateReq exDebtGoal).is_debt = true
    ∧ (lazyDebtSweepOne 0 exDebtGoal).is_debt = true
    ∧ (resetDebtOne ["g3"] exDebtGoal).is_debt = false := by
  have h := debt_flag_cleared_only_by_reset exUpdateReq 5 0 0 0 ["g3"]
    exDebtGoal
  refine ⟨h.1.trans (by decide), h.2.2.2.1 (by decide), ?_⟩
  rw [h.2.2.2.2.2]
  decide

-- ─── C1: the two balancer aggregates vs the spec's sum ──────────────

theorem goalMetricsCurrentSum_getD (g : UnifiedGoal) :
    goalMetricsCurrentSum g =
      ((g.metrics.getD []).map (fun m => m.current)).sum := by
  cases h : g.metrics <;> simp [goalMetricsCurrentSum, h]

theorem aggregateProgressMilestones_spec (gs : List UnifiedGoal)
    (mid : String) :
    aggregateProgressMilestones gs mid = specLinkedProgress gs mid := by
  induction gs with
  | nil => rfl
  | cons g t ih =>
    by_cases h : g.parent_goal_id = some mid <;>
      simp [aggregateProgressMilestones, specLinkedProgress,
        List.filter_cons, h, goalMetricsCurrentSum_getD] at ih ⊢ <;>
      omega

/-- Claim C1 (amended): only the milestones.rs balancer aggregates the
raw recorded progress across every linked GoalInstance regardless of
its completed flag; the monthly_goals.rs balancer (the registered
run_balancer_engine command) restricts the same sum to the instances
whose completed flag is true. -/
theorem balancer_aggregate_characterization (gs : List UnifiedGoal)
    (mid : String) :
    aggregateProgressMilestones gs mid = specLinkedProgress gs mid
    ∧ aggregateProgressMonthly gs mid =
        specLinkedProgress (gs.filter (fun g => g.completed)) mid := by
  refine ⟨aggregateProgressMilestones_spec gs mid, ?_⟩
  rw [← aggregateProgressMilestones_spec]
  unfold aggregateProgressMonthly aggregateProgressMilestones
  rw [List.filter_filter]

/-- Counterexample to C1 as stated: a single linked instance with
recorded progress 5 and completed = false contributes 5 to the spec's
sum but 0 to the monthly_goals.rs aggregate. -/
theorem balancer_aggregate_claim_false :
    aggregateProgressMonthly [exGoalHalfDone] "M" = 0
    ∧ specLinkedProgress [exGoalHalfDone] "M" = 5 := by decide

-- ─── C8: balancer termination on completion ─────────────────────────

/-- Claim C8: for a monthly milestone whose aggregated progress already
reaches target_value, run_balancer_engine reports success with zero
updates, zero daily requirement and the completion message, for every
clock value and offset: the completion check precedes the period-ended
check. -/
theorem balancer_completion_short_circuit
    (m : MilestoneRow) (goals : List UnifiedGoal) (now_utc : Int)
    (tz : Option Int)
    (hmonthly : m.period_type = "monthly")
    (hdone : m.target_value ≤ aggregateProgressMilestones goals m.id) :
    runBalancerEngine m goals now_utc tz =
      .ok ({ milestone_id := m.id, updated_goals := 0, daily_required := 0
             is_real_milestone := true
             message := "Milestone already complete!" }, goals) := by
  have hrem : m.target_value - aggregateProgressMilestones goals m.id ≤ 0 :=
    by omega
  simp [runBalancerEngine, hmonthly, hrem]

/-- Witness for C8: a concrete over-complete milestone, queried ten days
after its period ended, still reports completion. -/
theorem balancer_completion_short_circuit_witness :
    runBalancerEngine exMilestoneDone [exGoalOverDone] (10 * 86400) none =
      .ok ({ milestone_id := "M", updated_goals := 0, daily_required := 0
             is_real_milestone := true
             message := "Milestone already complete!" },
           [exGoalOverDone]) :=
  balancer_completion_short_circuit exMilestoneDone [exGoalOverDone]
    (10 * 86400) none rfl (by decide)

-- ─── C10: empty recurring pattern seeds every period day ────────────

theorem is_recurring_day_empty (ds : String) :
    Milestones.is_recurring_day "" ds = true := by
  simp [Milestones.is_recurring_day]
  exact Or.inl (by decide)

theorem insertOnConflictKey_milestone (gs : List UnifiedGoal)
    (m : MilestoneRow) (dt now : Int) (gid mid2 : String) (curr : Int) :
    insertOnConflictKey gs (mkMilestoneInstance m dt now gid mid2 curr) =
      gs ++ [mkMilestoneInstance m dt now gid mid2 curr] := rfl

theorem genDailyStep_fold_empty (m : MilestoneRow) (dt now : Int)
    (l : List Int) :
    ∀ (gs : List UnifiedGoal) (n : Nat),
    l.foldl (genDailyStep m "" dt now) (gs, n) =
      (gs ++ milestoneSeedRows m dt now l n, n + 2 * l.length) := by
  induction l with
  | nil => intro gs n; simp [milestoneSeedRows]
  | cons curr rest ih =>
    intro gs n
    have hstep : genDailyStep m "" dt now (gs, n) curr =
        (gs ++ [mkMilestoneInstance m dt now (genIdStr n)
          (genIdStr (n + 1)) curr], n + 2) := by
      simp [genDailyStep, is_recurring_day_empty,
        insertOnConflictKey_milestone]
    rw [List.foldl_cons, hstep, ih]
    simp [milestoneSeedRows, List.append_assoc]
    omega

theorem milestoneSeedRows_length (m : MilestoneRow) (dt now : Int)
    (l : List Int) : ∀ n, (milestoneSeedRows m dt now l n).length = l.length := by
  induction l with
  | nil => intro n; rfl
  | cons curr rest ih => intro n; simp [milestoneSeedRows, ih]

theorem milestoneSeedRows_parent (m : MilestoneRow) (dt now : Int)
    (l : List Int) :
    ∀ n r, r ∈ milestoneSeedRows m dt now l n →
      r.parent_goal_id = some m.id := by
  induction l with
  | nil => intro n r hr; simp [milestoneSeedRows] at hr
  | cons curr rest ih =>
    intro n r hr
    simp only [milestoneSeedRows, List.mem_cons] at hr
    rcases hr with h | h
    · subst h; rfl
    · exact ih (n + 2) r h

/-- Claim C10: milestones.rs is_recurring_day treats the empty pattern
as matching every day, so generate_daily_instances on a milestone with
recurring_pattern equal to the empty string attempts one insert per day
of [period_start, period_end], every inserted instance linked to the
milestone via parent_goal_id. -/
theorem milestone_empty_pattern_seeds_every_day (m : MilestoneRow)
    (now : Int) (gs : List UnifiedGoal) (n : Nat) :
    (∀ ds, Milestones.is_recurring_day "" ds = true)
    ∧ genDailyInstances m "" now (gs, n) =
        (gs ++ milestoneSeedRows m (milestoneDailyTarget m) now
          (dayStamps m.period_start m.period_end) n,
         n + 2 * numDaysInclusive m.period_start m.period_end)
    ∧ (milestoneSeedRows m (milestoneDailyTarget m) now
        (dayStamps m.period_start m.period_end) n).length =
        numDaysInclusive m.period_start m.period_end
    ∧ ∀ r ∈ milestoneSeedRows m (milestoneDailyTarget m) now
        (dayStamps m.period_start m.period_end) n,
      r.parent_goal_id = some m.id := by
  have hlen : (dayStamps m.period_start m.period_end).length =
      numDaysInclusive m.period_start m.period_end := by
    unfold dayStamps
    rw [List.length_map, List.length_range]
  refine ⟨is_recurring_day_empty, ?_, ?_, ?_⟩
  · unfold genDailyInstances
    rw [genDailyStep_fold_empty, hlen]
    rfl
  · rw [milestoneSeedRows_length, hlen]
  · exact milestoneSeedRows_parent m (milestoneDailyTarget m) now
      (dayStamps m.period_start m.period_end) n

/-- Witness for C10 at a three-day milestone: the empty pattern matches
a concrete date and seeding appends exactly three linked instances. -/
theorem milestone_empty_pattern_seeds_every_day_witness :
    Milestones.is_recurring_day "" "2026-02-17" = true
    ∧ (genDailyInstances exMilestone3Days "" 0 ([], 0)).1.length = 3 := by
  have h := milestone_empty_pattern_seeds_every_day exMilestone3Days 0 [] 0
  refine ⟨h.1 "2026-02-17", ?_⟩
  rw [show (genDailyInstances exMilestone3Days "" 0 ([], 0)).1 =
    [] ++ milestoneSeedRows exMilestone3Days
      (milestoneDailyTarget exMilestone3Days) 0
      (dayStamps exMilestone3Days.period_start exMilestone3Days.period_end)
      0 from congrArg Prod.fst h.2.1]
  rw [List.nil_append, h.2.2.1]
  decide

-- ─── C3: validation vs writes in create_goal ────────────────────────

/-- Claim C3 (amended): create_goal returns validation errors before any
write on the one-off path (no frequency) and for the empty-frequency
check of the recurring path; but the recurring path's past-date check
runs only after the template and its metrics are written, so an
InvalidInput error there leaves the store changed. -/
theorem create_goal_validation_before_write (today : String)
    (req : CreateGoalReq) (st : PosSt) :
    (req.frequency = none →
      ∀ e, (create_goal today req st).2 = .error e →
        (create_goal today req st).1 = st)
    ∧ (req.frequency = some "" →
        (create_goal today req st).1 = st ∧
        (create_goal today req st).2 = .error (.InvalidInput
          "Frequency cannot be empty for recurring goals")) := by
  constructor
  · intro hf e herr
    unfold create_goal at herr ⊢
    rw [hf] at herr ⊢
    cases hd : req.date with
    | none => rfl
    | some date =>
      rw [hd] at herr
      by_cases hlt : rustStrLt date today
      · simp [hlt]
      · simp [hlt] at herr
  · intro hf
    unfold create_goal
    rw [hf]
    exact ⟨rfl, rfl⟩

/-- Witness for C3's amended positive part: a one-off past-date request
errors and leaves the empty store untouched. -/
theorem create_goal_validation_before_write_witness :
    (create_goal "2026-10-12" exCreateOneOffPast emptyPosSt).1 =
      emptyPosSt :=
  (create_goal_validation_before_write "2026-10-12" exCreateOneOffPast
      emptyPosSt).1 rfl
    (.InvalidInput
      "Cannot create goals for past dates. Goal date: 2020-01-01, Today: 2026-10-12")
    rfl

/-- Counterexample to C3 as stated: the recurring past-date request is
rejected with InvalidInput, yet the store already holds the new
template row when the error is returned. -/
theorem create_goal_writes_before_validation :
    (create_goal "2026-10-12" exCreateRecurPast emptyPosSt).2 =
      .error (.InvalidInput
        "Cannot create goals for past dates. Goal date: 2020-01-01, Today: 2026-10-12")
    ∧ PosSt.recurring_goals
        (create_goal "2026-10-12" exCreateRecurPast emptyPosSt).1 =
        [{ id := "c0", description := "solve one problem"
           frequency := "Daily", is_active := true }]
    ∧ (create_goal "2026-10-12" exCreateRecurPast emptyPosSt).1 ≠
        emptyPosSt := by
  refine ⟨rfl, rfl, ?_⟩
  intro h
  have hrg : PosSt.recurring_goals
      (create_goal "2026-10-12" exCreateRecurPast emptyPosSt).1 =
      [{ id := "c0", description := "solve one problem"
         frequency := "Daily", is_active := true }] := rfl
  rw [h] at hrg
  simp [emptyPosSt] at hrg

-- ─── C2: batch entry point ──────────────────────────────────────────

/-- Claim C2 (amended): process_submissions processes the list
sequentially and returns the count of newly created (non-duplicate)
shadow activities; but a failing item aborts the batch: the error
propagates through the question-mark operator and the remaining items
are never processed. -/
theorem process_submissions_sequential_count_abort (dur : Int)
    (subs : List ShadowInput) (st : PosSt) :
    process_submissions (stepPure dur) subs st =
      .ok ((((pureBatchResults dur subs st).1.filter Option.isSome).length
              : Int),
           (pureBatchResults dur subs st).2)
    ∧ ∀ (step : ShadowInput → PosSt →
          Except PosError (Option String × PosSt))
        (e : PosError) (sub : ShadowInput) (rest : List ShadowInput)
        (st0 : PosSt),
        step sub st0 = .error e →
        process_submissions step (sub :: rest) st0 = .error e := by
  constructor
  · induction subs generalizing st with
    | nil => simp [process_submissions, pureBatchResults]
    | cons sub rest ih =>
      simp only [process_submissions, stepPure, pureBatchResults]
      rw [ih]
      cases hp : (process_shadow_log dur sub st).1 <;>
        simp [hp, List.filter_cons]
  · intro step e sub rest st0 h
    simp [process_submissions, h]

/-- Witness for C2: the failing step aborts a singleton batch with its
error. -/
theorem process_submissions_abort_witness :
    process_submissions exBoomStep [exBoomSub] emptyPosSt =
      .error (.Database "create shadow activity: connection closed") :=
  (process_submissions_sequential_count_abort 30 [] emptyPosSt).2
    exBoomStep (.Database "create shadow activity: connection closed")
    exBoomSub [] emptyPosSt rfl

/-- Counterexample to C2 as stated: with a failure on the first item the
whole batch returns the error, although the second item on its own
would have created a fresh shadow activity — it is never processed. -/
theorem process_submissions_abort_counterexample :
    process_submissions exBoomStep [exBoomSub, exOkSub] emptyPosSt =
      .error (.Database "create shadow activity: connection closed")
    ∧ (process_shadow_log 30 exOkSub emptyPosSt).1 = some "c0" :=
  ⟨rfl, rfl⟩

-- ─── C6: shadow redelivery idempotency ──────────────────────────────

theorem shadowDupPred_link (e : Int) (x : String) (y : Option String)
    (a : PosActivity) :
    shadowDupPred e (if a.id = x then { a with goal_id := y } else a) =
      shadowDupPred e a := by
  by_cases h : a.id = x <;> simp [h, shadowDupPred]

theorem any_dup_map_link (e : Int) (x : String) (y : Option String)
    (l : List PosActivity) :
    (l.map (fun a => if a.id = x then { a with goal_id := y } else a)).any
        (shadowDupPred e) =
      l.any (shadowDupPred e) := by
  induction l with
  | nil => rfl
  | cons a t ih => simp [List.any_cons, shadowDupPred_link, ih]

theorem shadowDupPred_link_comp (e : Int) (x : String)
    (y : Option String) :
    (shadowDupPred e ∘ fun a =>
      if a.id = x then { a with goal_id := y } else a) = shadowDupPred e :=
  funext fun a => shadowDupPred_link e x y a

theorem countP_dup_map_link (e : Int) (x : String) (y : Option String)
    (l : List PosActivity) :
    (l.map (fun a => if a.id = x then { a with goal_id := y } else a)).countP
        (shadowDupPred e) =
      l.countP (shadowDupPred e) := by
  induction l with
  | nil => rfl
  | cons a t ih => simp [List.countP_cons, shadowDupPred_link, ih]

theorem process_shadow_log_dup_exists (dur : Int) (sub : ShadowInput)
    (st : PosSt)
    (h : st.activities.any (shadowDupPred sub.submitted_time) = true) :
    process_shadow_log dur sub st = (none, st) := by
  unfold process_shadow_log
  simp [h]

theorem process_shadow_log_creates_dup (dur : Int) (sub : ShadowInput)
    (st : PosSt) :
    ((process_shadow_log dur sub st).2).activities.any
      (shadowDupPred sub.submitted_time) = true := by
  by_cases h : st.activities.any (shadowDupPred sub.submitted_time) = true
  · rw [process_shadow_log_dup_exists dur sub st h]
    exact h
  · simp only [Bool.not_eq_true] at h
    unfold process_shadow_log
    simp only [h, Bool.false_eq_true, if_false]
    split
    · simp [any_dup_map_link, List.any_append, shadowDupPred]
    · split
      · split <;>
          simp [any_dup_map_link, List.any_append, shadowDupPred]
      · simp [List.any_append, shadowDupPred]

/-- Claim C6: redelivering the same ShadowInput is a no-op — the second
call finds the shadow activity with the same end timestamp, returns
None, and changes nothing; and the first call leaves the store with the
duplicate count unchanged (when the input was already processed) or
raised by exactly one new shadow activity. -/
theorem shadow_redelivery_noop (dur : Int) (sub : ShadowInput)
    (st : PosSt) :
    process_shadow_log dur sub (process_shadow_log dur sub st).2 =
      (none, (process_shadow_log dur sub st).2)
    ∧ ((process_shadow_log dur sub st).2).activities.countP
        (shadowDupPred sub.submitted_time) =
      (if st.activities.any (shadowDupPred sub.submitted_time) then
          st.activities.countP (shadowDupPred sub.submitted_time)
        else st.activities.countP (shadowDupPred sub.submitted_time) + 1)
    := by
  constructor
  · exact process_shadow_log_dup_exists dur sub _
      (process_shadow_log_creates_dup dur sub st)
  · by_cases h : st.activities.any (shadowDupPred sub.submitted_time) = true
    · rw [process_shadow_log_dup_exists dur sub st h]
      simp [h]
    · simp only [Bool.not_eq_true] at h
      rw [if_neg (by simp [h])]
      unfold process_shadow_log
      simp only [h, Bool.false_eq_true, if_false]
      split
      · simp [countP_dup_map_link, shadowDupPred_link_comp,
          List.countP_append, List.countP_cons, shadowDupPred]
      · split
        · split <;>
            simp [countP_dup_map_link, shadowDupPred_link_comp,
              List.countP_append, List.countP_cons, shadowDupPred]
        · simp [List.countP_append, List.countP_cons, shadowDupPred]

-- ─── C7: exact-match precedence over the keyword fallback ───────────

/-- Claim C7: when an unverified goal with the submission's exact
problem id exists on the activity's local date (and the input is not a
redelivery), process_shadow_log links and verifies that goal; the
keyword fallback is never attempted, so the metric table is completely
unchanged — no metric of any other goal is incremented — and no goal
other than the matched one is touched. -/
theorem shadow_exact_match_precedence (dur : Int) (sub : ShadowInput)
    (st : PosSt) (g : PosGoal)
    (hno : st.activities.any (shadowDupPred sub.submitted_time) = false)
    (hfind : st.goals.find?
        (exactMatchPred (formatTsDate (sub.submitted_time - dur * 60))
          sub.problem_id) = some g) :
    (process_shadow_log dur sub st).1 = some (genIdStr st.nextId)
    ∧ (process_shadow_log dur sub st).2.goals =
        st.goals.map (fun r =>
          if r.id = g.id then { r with is_verified := true } else r)
    ∧ (process_shadow_log dur sub st).2.goal_metrics = st.goal_metrics
    := by
  unfold process_shadow_log
  simp only [hno, Bool.false_eq_true, if_false]
  simp [hfind]

/-- Witness for C7: a store with an exact-match goal and an unrelated
count-based goal (whose keyword the fallback would match); processing
the submission leaves the metric table untouched. -/
theorem shadow_exact_match_precedence_witness :
    (process_shadow_log 30 exShadowSub exShadowSt).1 = some "c0"
    ∧ (process_shadow_log 30 exShadowSub exShadowSt).2.goal_metrics =
        [exOtherMetric] := by
  have h := shadow_exact_match_precedence 30 exShadowSub exShadowSt
    exExactGoal rfl (by decide)
  exact ⟨h.1, h.2.2⟩

-- ─── C5: idempotent recurring expansion ─────────────────────────────

theorem insertOnConflictKey_cases (gs : List UnifiedGoal)
    (row : UnifiedGoal) :
    insertOnConflictKey gs row = gs ∨
      insertOnConflictKey gs row = gs ++ [row] := by
  unfold insertOnConflictKey
  cases hr : row.recurring_template_id with
  | none => cases row.due_date_local <;> exact Or.inr rfl
  | some tid =>
    cases hd : row.due_date_local with
    | none => exact Or.inr rfl
    | some d =>
      by_cases hk : hasInstanceKey gs tid d <;> simp [hk]

theorem hasInstanceKey_append (gs l : List UnifiedGoal) (t : String)
    (d : Int) :
    hasInstanceKey (gs ++ l) t d =
      (hasInstanceKey gs t d || hasInstanceKey l t d) := by
  simp [hasInstanceKey, List.any_append]

theorem hasInstanceKey_insert_mono (gs : List UnifiedGoal)
    (row : UnifiedGoal) (t : String) (d : Int)
    (h : hasInstanceKey gs t d = true) :
    hasInstanceKey (insertOnConflictKey gs row) t d = true := by
  rcases insertOnConflictKey_cases gs row with hc | hc <;> rw [hc]
  · exact h
  · rw [hasInstanceKey_append, h]
    rfl

theorem insertOnConflictKey_present (gs : List UnifiedGoal)
    (row : UnifiedGoal) (tid : String) (d : Int)
    (hr : row.recurring_template_id = some tid)
    (hd : row.due_date_local = some d)
    (hk : hasInstanceKey gs tid d = true) :
    insertOnConflictKey gs row = gs := by
  unfold insertOnConflictKey
  rw [hr, hd]
  simp [hk]

theorem hasInstanceKey_insert_self (gs : List UnifiedGoal)
    (row : UnifiedGoal) (tid : String) (d : Int)
    (hr : row.recurring_template_id = some tid)
    (hd : row.due_date_local = some d) :
    hasInstanceKey (insertOnConflictKey gs row) tid d = true := by
  unfold insertOnConflictKey
  rw [hr, hd]
  by_cases hk : hasInstanceKey gs tid d
  · simp [hk]
  · simp only [hk, Bool.false_eq_true, if_false]
    rw [hasInstanceKey_append]
    have : hasInstanceKey [row] tid d = true := by
      simp [hasInstanceKey, hr, hd]
    rw [this, Bool.or_true]

theorem expandStepTemplate_mono (dn : String) (localCurr now : Int)
    (acc : List UnifiedGoal × Nat) (tmpl : UnifiedGoal) (t : String)
    (d : Int) (h : hasInstanceKey acc.1 t d = true) :
    hasInstanceKey ((expandStepTemplate dn localCurr now acc tmpl).1) t d
      = true := by
  unfold expandStepTemplate
  cases hp : tmpl.recurring_pattern with
  | none => exact h
  | some p =>
    by_cases hm : matchesPatternDay p dn
    · simp only [hm, if_true]
      exact hasInstanceKey_insert_mono _ _ _ _ h
    · simpa [hm]

theorem expandStepTemplate_achieves (dn : String) (localCurr now : Int)
    (acc : List UnifiedGoal × Nat) (tmpl : UnifiedGoal) (p : String)
    (hp : tmpl.recurring_pattern = some p)
    (hm : matchesPatternDay p dn = true) :
    hasInstanceKey ((expandStepTemplate dn localCurr now acc tmpl).1)
      tmpl.id (Int.fdiv localCurr 86400) = true := by
  unfold expandStepTemplate
  rw [hp]
  simp only [hm, if_true]
  exact hasInstanceKey_insert_self _ _ _ _ rfl rfl

theorem expandStepTemplate_noop (dn : String) (localCurr now : Int)
    (acc : List UnifiedGoal × Nat) (tmpl : UnifiedGoal)
    (h : ∀ p, tmpl.recurring_pattern = some p →
      matchesPatternDay p dn = true →
      hasInstanceKey acc.1 tmpl.id (Int.fdiv localCurr 86400) = true) :
    (expandStepTemplate dn localCurr now acc tmpl).1 = acc.1 := by
  unfold expandStepTemplate
  cases hp : tmpl.recurring_pattern with
  | none => rfl
  | some p =>
    by_cases hm : matchesPatternDay p dn
    · simp only [hm, if_true]
      exact insertOnConflictKey_present _ _ _ _ rfl rfl (h p hp hm)
    · simp [hm]

theorem expandStepTemplate_append (dn : String) (localCurr now : Int)
    (acc : List UnifiedGoal × Nat) (tmpl : UnifiedGoal) :
    ∃ added, (expandStepTemplate dn localCurr now acc tmpl).1 =
      acc.1 ++ added ∧ ∀ r ∈ added, r.recurring_pattern = none := by
  unfold expandStepTemplate
  cases hp : tmpl.recurring_pattern with
  | none => exact ⟨[], (List.append_nil _).symm, by simp⟩
  | some p =>
    by_cases hm : matchesPatternDay p dn
    · simp only [hm, if_true]
      rcases insertOnConflictKey_cases acc.1
          (mkRecurringInstance tmpl (genIdStr acc.2) localCurr now) with
        hc | hc
      · exact ⟨[], by rw [hc, List.append_nil], by simp⟩
      · refine ⟨[mkRecurringInstance tmpl (genIdStr acc.2) localCurr now],
          by rw [hc], ?_⟩
        intro r hr
        rw [List.mem_singleton] at hr
        subst hr
        rfl
    · exact ⟨[], by simp [hm], by simp⟩

theorem foldTmpl_mono (dn : String) (localCurr now : Int)
    (tmpls : List UnifiedGoal) :
    ∀ (acc : List UnifiedGoal × Nat) (t : String) (d : Int),
    hasInstanceKey acc.1 t d = true →
    hasInstanceKey
      ((tmpls.foldl (expandStepTemplate dn localCurr now) acc).1) t d
      = true := by
  induction tmpls with
  | nil => intro acc t d h; exact h
  | cons a rest ih =>
    intro acc t d h
    rw [List.foldl_cons]
    exact ih _ t d (expandStepTemplate_mono dn localCurr now acc a t d h)

theorem foldTmpl_achieves (dn : String) (localCurr now : Int)
    (tmpls : List UnifiedGoal) :
    ∀ (acc : List UnifiedGoal × Nat) (tmpl : UnifiedGoal),
    tmpl ∈ tmpls → ∀ p, tmpl.recurring_pattern = some p →
    matchesPatternDay p dn = true →
    hasInstanceKey
      ((tmpls.foldl (expandStepTemplate dn localCurr now) acc).1)
      tmpl.id (Int.fdiv localCurr 86400) = true := by
  induction tmpls with
  | nil => intro acc tmpl hmem; exact absurd hmem (by simp)
  | cons a rest ih =>
    intro acc tmpl hmem p hp hm
    rw [List.foldl_cons]
    rcases List.mem_cons.mp hmem with heq | hmem'
    · subst heq
      exact foldTmpl_mono dn localCurr now rest _ _ _
        (expandStepTemplate_achieves dn localCurr now acc tmpl p hp hm)
    · exact ih _ tmpl hmem' p hp hm

theorem foldTmpl_noop (dn : String) (localCurr now : Int)
    (tmpls : List UnifiedGoal) :
    ∀ (acc : List UnifiedGoal × Nat),
    (∀ tmpl ∈ tmpls, ∀ p, tmpl.recurring_pattern = some p →
      matchesPatternDay p dn = true →
      hasInstanceKey acc.1 tmpl.id (Int.fdiv localCurr 86400) = true) →
    (tmpls.foldl (expandStepTemplate dn localCurr now) acc).1 = acc.1 := by
  induction tmpls with
  | nil => intro acc _; rfl
  | cons a rest ih =>
    intro acc h
    rw [List.foldl_cons]
    have h1 : (expandStepTemplate dn localCurr now acc a).1 = acc.1 :=
      expandStepTemplate_noop dn localCurr now acc a
        (h a (List.mem_cons_self a rest))
    have h2 := ih (expandStepTemplate dn localCurr now acc a)
      (fun tmpl hm p hp hmatch => by
        rw [h1]
        exact h tmpl (List.mem_cons_of_mem a hm) p hp hmatch)
    rw [h2, h1]

theorem foldTmpl_append (dn : String) (localCurr now : Int)
    (tmpls : List UnifiedGoal) :
    ∀ (acc : List UnifiedGoal × Nat),
    ∃ added, (tmpls.foldl (expandStepTemplate dn localCurr now) acc).1 =
      acc.1 ++ added ∧ ∀ r ∈ added, r.recurring_pattern = none := by
  induction tmpls with
  | nil => intro acc; exact ⟨[], (List.append_nil _).symm, by simp⟩
  | cons a rest ih =>
    intro acc
    rw [List.foldl_cons]
    rcases expandStepTemplate_append dn localCurr now acc a with
      ⟨a1, ha1, hn1⟩
    rcases ih (expandStepTemplate dn localCurr now acc a) with
      ⟨a2, ha2, hn2⟩
    refine ⟨a1 ++ a2, ?_, ?_⟩
    · rw [ha2, ha1, List.append_assoc]
    · intro r hr
      rcases List.mem_append.mp hr with h | h
      · exact hn1 r h
      · exact hn2 r h

theorem expandDay_eq (tmpls : List UnifiedGoal) (off now : Int)
    (acc : List UnifiedGoal × Nat) (curr : Int) :
    expandDay tmpls off now acc curr =
      tmpls.foldl
        (expandStepTemplate (dayName (Int.fdiv (curr + off * 60) 86400))
          (curr + off * 60) now) acc := rfl

theorem foldDays_mono (tmpls : List UnifiedGoal) (off now : Int)
    (days : List Int) :
    ∀ (acc : List UnifiedGoal × Nat) (t : String) (d : Int),
    hasInstanceKey acc.1 t d = true →
    hasInstanceKey ((days.foldl (expandDay tmpls off now) acc).1) t d
      = true := by
  induction days with
  | nil => intro acc t d h; exact h
  | cons c rest ih =>
    intro acc t d h
    rw [List.foldl_cons, expandDay_eq]
    exact ih _ t d (foldTmpl_mono _ _ _ tmpls acc t d h)

theorem foldDays_achieves (tmpls : List UnifiedGoal) (off now : Int)
    (days : List Int) :
    ∀ (acc : List UnifiedGoal × Nat) (curr : Int), curr ∈ days →
    ∀ tmpl ∈ tmpls, ∀ p, tmpl.recurring_pattern = some p →
    matchesPatternDay p (dayName (Int.fdiv (curr + off * 60) 86400))
      = true →
    hasInstanceKey ((days.foldl (expandDay tmpls off now) acc).1)
      tmpl.id (Int.fdiv (curr + off * 60) 86400) = true := by
  induction days with
  | nil => intro acc curr hmem; exact absurd hmem (by simp)
  | cons c rest ih =>
    intro acc curr hmem tmpl htm p hp hm
    rw [List.foldl_cons]
    rcases List.mem_cons.mp hmem with heq | hmem'
    · subst heq
      exact foldDays_mono tmpls off now rest _ _ _
        (by rw [expandDay_eq]
            exact foldTmpl_achieves _ _ _ tmpls acc tmpl htm p hp hm)
    · exact ih _ curr hmem' tmpl htm p hp hm

theorem foldDays_noop (tmpls : List UnifiedGoal) (off now : Int)
    (days : List Int) :
    ∀ (acc : List UnifiedGoal × Nat),
    (∀ curr ∈ days, ∀ tmpl ∈ tmpls, ∀ p,
      tmpl.recurring_pattern = some p →
      matchesPatternDay p (dayName (Int.fdiv (curr + off * 60) 86400))
        = true →
      hasInstanceKey acc.1 tmpl.id (Int.fdiv (curr + off * 60) 86400)
        = true) →
    (days.foldl (expandDay tmpls off now) acc).1 = acc.1 := by
  induction days with
  | nil => intro acc _; rfl
  | cons c rest ih =>
    intro acc h
    rw [List.foldl_cons]
    have h1 : (expandDay tmpls off now acc c).1 = acc.1 := by
      rw [expandDay_eq]
      exact foldTmpl_noop _ _ _ tmpls acc
        (fun tmpl htm p hp hm =>
          h c (List.mem_cons_self c rest) tmpl htm p hp hm)
    have h2 := ih (expandDay tmpls off now acc c)
      (fun curr hc tmpl htm p hp hm => by
        rw [h1]
        exact h curr (List.mem_cons_of_mem c hc) tmpl htm p hp hm)
    rw [h2, h1]

theorem foldDays_append (tmpls : List UnifiedGoal) (off now : Int)
    (days : List Int) :
    ∀ (acc : List UnifiedGoal × Nat),
    ∃ added, (days.foldl (expandDay tmpls off now) acc).1 =
      acc.1 ++ added ∧ ∀ r ∈ added, r.recurring_pattern = none := by
  induction days with
  | nil => intro acc; exact ⟨[], (List.append_nil _).symm, by simp⟩
  | cons c rest ih =>
    intro acc
    rw [List.foldl_cons]
    have hstep : ∃ added, (expandDay tmpls off now acc c).1 =
        acc.1 ++ added ∧ ∀ r ∈ added, r.recurring_pattern = none := by
      rw [expandDay_eq]
      exact foldTmpl_append _ _ now tmpls acc
    rcases hstep with ⟨a1, ha1, hn1⟩
    rcases ih (expandDay tmpls off now acc c) with ⟨a2, ha2, hn2⟩
    refine ⟨a1 ++ a2, ?_, ?_⟩
    · rw [ha2, ha1, List.append_assoc]
    · intro r hr
      rcases List.mem_append.mp hr with h | h
      · exact hn1 r h
      · exact hn2 r h

theorem templatesOf_append_instances (gs added : List UnifiedGoal)
    (h : ∀ r ∈ added, r.recurring_pattern = none) :
    templatesOf (gs ++ added) = templatesOf gs := by
  unfold templatesOf
  rw [List.filter_append]
  have : added.filter (fun g =>
      g.recurring_pattern.isSome && g.recurring_template_id.isNone &&
      !g.completed) = [] := by
    rw [List.filter_eq_nil_iff]
    intro r hr
    simp [h r hr]
  rw [this, List.append_nil]

theorem recurringExpansionRun_eq (off now start endT : Int)
    (st : List UnifiedGoal × Nat) :
    recurringExpansionRun off now start endT st =
      (dayStampsCapped start endT).foldl
        (expandDay (templatesOf st.1) off now) st := rfl

/-- A second expansion run over the same window changes nothing: every
attempted (template, local date) key already exists after the first
run, so every conflict-discarding insert is a no-op, and the template
set seen by the second run is unchanged because instances carry a NULL
pattern. -/
theorem recurring_expansion_second_run_noop (off now start endT : Int)
    (gs : List UnifiedGoal) (n : Nat) :
    (recurringExpansionRun off now start endT
        (recurringExpansionRun off now start endT (gs, n))).1 =
      (recurringExpansionRun off now start endT (gs, n)).1 := by
  set st1 := recurringExpansionRun off now start endT (gs, n) with hst1
  have htm : templatesOf st1.1 = templatesOf gs := by
    rw [hst1, recurringExpansionRun_eq]
    rcases foldDays_append (templatesOf (gs, n).1) off now
        (dayStampsCapped start endT) (gs, n) with ⟨added, ha, hn⟩
    rw [ha]
    exact templatesOf_append_instances gs added hn
  rw [recurringExpansionRun_eq, htm]
  apply foldDays_noop
  intro curr hc tmpl htm' p hp hm
  rw [hst1, recurringExpansionRun_eq]
  exact foldDays_achieves (templatesOf gs) off now
    (dayStampsCapped start endT) (gs, n) curr hc tmpl htm' p hp hm

theorem instanceKeys_append (gs l : List UnifiedGoal) :
    instanceKeys (gs ++ l) = instanceKeys gs ++ instanceKeys l := by
  simp [instanceKeys, List.filterMap_append]

theorem hasInstanceKey_iff_mem (gs : List UnifiedGoal) (t : String)
    (d : Int) :
    hasInstanceKey gs t d = true ↔ (t, d) ∈ instanceKeys gs := by
  induction gs with
  | nil => simp [hasInstanceKey, instanceKeys]
  | cons g rest ih =>
    cases hr : g.recurring_template_id with
    | none =>
      simp only [hasInstanceKey, instanceKeys, List.any_cons,
        List.filterMap_cons, hr] at ih ⊢
      simpa using ih
    | some a =>
      cases hd : g.due_date_local with
      | none =>
        simp only [hasInstanceKey, instanceKeys, List.any_cons,
          List.filterMap_cons, hr, hd] at ih ⊢
        simpa using ih
      | some b =>
        simp only [hasInstanceKey, instanceKeys, List.any_cons,
          List.filterMap_cons, hr, hd] at ih ⊢
        simp [ih]
        aesop

theorem insertOnConflictKey_nodup (gs : List UnifiedGoal)
    (row : UnifiedGoal) (h : (instanceKeys gs).Nodup) :
    (instanceKeys (insertOnConflictKey gs row)).Nodup := by
  unfold insertOnConflictKey
  cases hr : row.recurring_template_id with
  | none =>
    cases hd : row.due_date_local <;>
      simpa [instanceKeys_append, instanceKeys, List.filterMap_cons,
        hr, hd] using h
  | some tid =>
    cases hd : row.due_date_local with
    | none =>
      simpa [instanceKeys_append, instanceKeys, List.filterMap_cons,
        hr, hd] using h
    | some d =>
      by_cases hk : hasInstanceKey gs tid d
      · simpa [hk] using h
      · simp only [hk, Bool.false_eq_true, if_false]
        rw [instanceKeys_append]
        have hkr : instanceKeys [row] = [(tid, d)] := by
          simp [instanceKeys, List.filterMap_cons, hr, hd]
        rw [hkr, List.nodup_append]
        refine ⟨h, List.nodup_singleton _, ?_⟩
        intro x hx hx'
        rw [List.mem_singleton] at hx'
        subst hx'
        exact hk ((hasInstanceKey_iff_mem gs tid d).mpr hx)

theorem expandStepTemplate_nodup (dn : String) (localCurr now : Int)
    (acc : List UnifiedGoal × Nat) (tmpl : UnifiedGoal)
    (h : (instanceKeys acc.1).Nodup) :
    (instanceKeys ((expandStepTemplate dn localCurr now acc tmpl).1)).Nodup
    := by
  unfold expandStepTemplate
  cases hp : tmpl.recurring_pattern with
  | none => exact h
  | some p =>
    by_cases hm : matchesPatternDay p dn
    · simp only [hm, if_true]
      exact insertOnConflictKey_nodup _ _ h
    · simpa [hm] using h

theorem foldTmpl_nodup (dn : String) (localCurr now : Int)
    (tmpls : List UnifiedGoal) :
    ∀ (acc : List UnifiedGoal × Nat), (instanceKeys acc.1).Nodup →
    (instanceKeys
      ((tmpls.foldl (expandStepTemplate dn localCurr now) acc).1)).Nodup
    := by
  induction tmpls with
  | nil => intro acc h; exact h
  | cons a rest ih =>
    intro acc h
    rw [List.foldl_cons]
    exact ih _ (expandStepTemplate_nodup dn localCurr now acc a h)

theorem foldDays_nodup (tmpls : List UnifiedGoal) (off now : Int)
    (days : List Int) :
    ∀ (acc : List UnifiedGoal × Nat), (instanceKeys acc.1).Nodup →
    (instanceKeys ((days.foldl (expandDay tmpls off now) acc).1)).Nodup
    := by
  induction days with
  | nil => intro acc h; exact h
  | cons c rest ih =>
    intro acc h
    rw [List.foldl_cons, expandDay_eq]
    exact ih _ (foldTmpl_nodup _ _ _ tmpls acc h)

/-- Claim C5: a second RecurringExpander run over the same window and
offset produces exactly the instance table of the first run, and the
per-(template id, due-local-date) uniqueness is maintained: starting
from a duplicate-free table, the table after expansion is still
duplicate-free — the conflict-discarding insert alone prevents
duplicates. -/
theorem recurring_expansion_idempotent (off now start endT : Int)
    (gs : List UnifiedGoal) (n : Nat) :
    (recurringExpansionRun off now start endT
        (recurringExpansionRun off now start endT (gs, n))).1 =
      (recurringExpansionRun off now start endT (gs, n)).1
    ∧ ((instanceKeys gs).Nodup →
        (instanceKeys
          (recurringExpansionRun off now start endT (gs, n)).1).Nodup)
    := by
  refine ⟨recurring_expansion_second_run_noop off now start endT gs n, ?_⟩
  intro h
  rw [recurringExpansionRun_eq]
  exact foldDays_nodup _ off now _ (gs, n) h

/-- Witness for C5: a concrete daily template expanded over a two-day
window keeps the instance keys duplicate-free. -/
theorem recurring_expansion_idempotent_witness :
    (instanceKeys
      (recurringExpansionRun 0 0 0 86400 ([exTemplate], 0)).1).Nodup :=
  (recurring_expansion_idempotent 0 0 0 86400 [exTemplate] 0).2 (by decide)

end Coppermind
